import Mathlib

/-!
Verification of the motion-planning and position-tracking engine of
`Galvo.py` (classes `GalvoDriver` and `GalvoDrivers`).

Shallow embedding conventions:
* Python floats (positions in microns, voltages) are modelled as `ℚ`.
* The LabJack object (`open_labjack`) is split into a `Bool` flag on the
  controller state ("a backend is attached") plus an explicit `Backend`
  record of the readback/write/stream operations, passed to the operations
  that interact with hardware.  The backend itself is an external
  collaborator of the repository, so its behaviour is abstract.
* `KeyboardInterrupt` arriving while a backend call is blocking is modelled
  by an explicit `intr : Bool` argument: `intr = true` means the interrupt
  arrived during the blocking backend call, before `actual_V` / `actual_t`
  were assigned (the `NameError` fallbacks in the handler therefore fire).
  The exception that propagates to the caller becomes an `Except.error`.
* Python exceptions raised by constructors become `Except.error` results.
-/

/-- Modelled from the spec: `Position.py` (class `Point`) is not under
`src/`.  Per-axis monotonic affine calibration between a physical position
in microns and the DAC output code/voltage: `code = a(axis)·position +
b(axis)` with `a(axis) ≠ 0`.  The concrete nonzero constants below are an
arbitrary instance of that contract; no theorem depends on their values. -/
def calSlope (ax : String) : ℚ := if ax = "z" then 3 else 2

/-- Modelled from the spec: affine offset `b(axis)` of the calibration. -/
def calOffset (ax : String) : ℚ := if ax = "z" then 5 else 1

/-- Modelled from the spec: a `Point` is a dual representation of one
axis's state as a physical position and its calibrated output
code/voltage; exactly one of the two is supplied at construction and the
other is derived through the affine calibration (`Point.ofPos` /
`Point.ofVoltage` below).  Immutable once constructed. -/
structure Point where
  axis : String
  pos : ℚ
  voltage : ℚ
deriving DecidableEq

/-- Construct a `Point` from a physical position; the voltage/code is
derived through the axis calibration. -/
def Point.ofPos (ax : String) (p : ℚ) : Point :=
  { axis := ax, pos := p, voltage := calSlope ax * p + calOffset ax }

/-- Construct a `Point` from a measured voltage/code; the position is
derived through the inverse axis calibration. -/
def Point.ofVoltage (ax : String) (v : ℚ) : Point :=
  { axis := ax, pos := (v - calOffset ax) / calSlope ax, voltage := v }

/-- Modelled from the spec: subtraction of two Points of the same axis is
position-only (codes are not subtracted); the result is the Point of the
position difference. -/
def Point.sub (p q : Point) : Point := Point.ofPos p.axis (p.pos - q.pos)

/-- Modelled from the spec: `Move.py` (class `Move`) is not under `src/`.
Single-axis constant-speed trajectory from `pos_i` to `pos_f`; the claims
only consult its duration `Move.t` and its final output code
`Move.lastBit`. -/
structure Move where
  axis : String
  pos_i : ℚ
  pos_f : ℚ
  speed : ℚ

/-- Modelled from the spec: `duration = |end - start| / speed` when
`speed > 0` and the distance is nonzero; otherwise `duration = 0`. -/
def Move.t (m : Move) : ℚ :=
  if m.speed = 0 ∨ m.pos_i = m.pos_f then 0 else |m.pos_f - m.pos_i| / m.speed

/-- Modelled from the spec: the final sample of the code sequence always
equals the destination's calibrated code exactly. -/
def Move.lastBit (m : Move) : ℚ := (Point.ofPos m.axis m.pos_f).voltage

/-- The external DAC backend (LabJack `updater`/`streamer`), specified at
the boundary only: `update` performs a one-shot write of final codes and
returns the readback keyed by DAC register name, `read` returns the
current readback, `stream_t` runs a timed stream of planned duration `t`
and returns the measured duration. -/
structure Backend where
  update : List ℚ → String → ℚ
  read : String → ℚ
  stream_t : ℚ → ℚ

/-- Error raised by `GalvoDriver.__init__`: axis identifier outside the
supported set `{"x", "z"}` (a `ValueError` in the source). -/
inductive DriverErr where
  | invalidAxis
deriving DecidableEq

/-- State of `GalvoDriver` (`Galvo.py`): one axis's current `Point`
(`self.__point`), the append-only history (`self._point_history`), the
origin `Point` (`self._origin`), plus the construction arguments.
`voltage_attr` models the plain instance attribute named `voltage` that
only ever comes into existence if some code executes `driver.voltage = v`:
`GalvoDriver` defines a property `_voltage`, not `voltage`, so such an
assignment does not go through any setter and is dead state. -/
structure GalvoDriver where
  axis : String
  dac_name : String
  open_labjack : Bool
  point : Point
  point_history : List Point
  origin : Point
  voltage_attr : Option ℚ
deriving DecidableEq

/-- The `_point` property setter: appends a copy of the previous current
`Point` to the history, then installs the new value. -/
def GalvoDriver.set_point (g : GalvoDriver) (p : Point) : GalvoDriver :=
  { g with point_history := g.point_history ++ [g.point], point := p }

/-- `GalvoDriver.pos`: current absolute position in microns. -/
def GalvoDriver.pos (g : GalvoDriver) : ℚ := g.point.pos

/-- The `_pos` property setter: wraps the float in a `Point` and goes
through the `_point` setter. -/
def GalvoDriver.set_pos (g : GalvoDriver) (v : ℚ) : GalvoDriver :=
  g.set_point (Point.ofPos g.axis v)

/-- The `_voltage` property setter: builds the `Point` from a voltage and
goes through the `_point` setter. -/
def GalvoDriver.set_voltage (g : GalvoDriver) (v : ℚ) : GalvoDriver :=
  g.set_point (Point.ofVoltage g.axis v)

/-- `GalvoDriver.rel_pos`: position relative to the origin,
`(self._point - self._origin).pos`. -/
def GalvoDriver.rel_pos (g : GalvoDriver) : ℚ := (g.point.sub g.origin).pos

/-- `GalvoDriver.pos_history`: the history as positions only. -/
def GalvoDriver.pos_history (g : GalvoDriver) : List ℚ :=
  g.point_history.map Point.pos

/-- `GalvoDriver.set_origin`: with no argument (`none`) the origin becomes
the current `Point`; with a value it becomes a fresh `Point` at that
position. -/
def GalvoDriver.set_origin (g : GalvoDriver) (orig : Option ℚ) : GalvoDriver :=
  match orig with
  | none => { g with origin := g.point }
  | some v => { g with origin := Point.ofPos g.axis v }

/-- `GalvoDriver.go_to new_pos speed bk intr`: move to `new_pos` microns
relative to the origin at `speed` microns/second.

* no backend attached: commit `currentPoint` directly to the absolute
  target, report duration 0;
* backend attached, not interrupted: immediate write (`speed == 0` or
  degenerate move) or stream, then commit the absolute target and report
  the position read back from the DAC register;
* backend attached, interrupted during the blocking backend call
  (`intr = true`): the handler's `NameError` fallbacks fire, `actual_V`
  is taken from `updater.read()`, `currentPoint` is set through the
  `_voltage` setter from the readback at `self.dac_name`, and the
  `KeyboardInterrupt` is re-raised (`Except.error ()`). -/
def GalvoDriver.go_to (g : GalvoDriver) (new_pos speed : ℚ) (bk : Backend)
    (intr : Bool) : GalvoDriver × Except Unit (ℚ × ℚ) :=
  let pos_abs := new_pos + g.origin.pos
  let move : Move := { axis := g.axis, pos_i := g.pos, pos_f := pos_abs, speed := speed }
  if g.open_labjack then
    if intr then
      let actual_V := bk.read
      (g.set_voltage (actual_V g.dac_name), Except.error ())
    else if speed = 0 ∨ move.t = 0 then
      let actual_V := bk.update [move.lastBit]
      (g.set_pos pos_abs, Except.ok ((Point.ofVoltage g.axis (actual_V g.dac_name)).pos, 0))
    else
      let actual_t := bk.stream_t move.t
      let actual_V := bk.read
      (g.set_pos pos_abs, Except.ok ((Point.ofVoltage g.axis (actual_V g.dac_name)).pos, actual_t))
  else
    (g.set_pos pos_abs, Except.ok ((Point.ofPos g.axis pos_abs).pos, 0))

/-- `GalvoDriver.__init__` with the default `open_labjack=False` (the only
form the claims need; `GalvoDrivers` always constructs its children with
`open_labjack=False`): reject an axis outside `{"x", "z"}`, seed
`currentPoint` and the history with the initial `Point`, call
`set_origin(pos_init)` and then `go_to(pos_init, 0)`. -/
def GalvoDriver.init (axis dac_name : String) (pos_init : ℚ) :
    Except DriverErr GalvoDriver :=
  if axis = "x" ∨ axis = "z" then
    let g0 : GalvoDriver :=
      { axis := axis, dac_name := dac_name, open_labjack := false,
        point := Point.ofPos axis pos_init,
        point_history := [Point.ofPos axis pos_init],
        origin := Point.ofPos axis pos_init,
        voltage_attr := none }
    Except.ok (g0.go_to pos_init 0 ⟨fun _ _ => 0, fun _ => 0, fun _ => 0⟩ false).1
  else
    Except.error DriverErr.invalidAxis

/-- A throwaway driver used only as the default of total lookups that the
source guarantees never to miss. -/
def defaultGalvo : GalvoDriver :=
  { axis := "x", dac_name := "", open_labjack := false,
    point := Point.ofPos "x" 0, point_history := [Point.ofPos "x" 0],
    origin := Point.ofPos "x" 0, voltage_attr := none }

/-- A backend whose readback is identically zero; used where a `Backend`
argument is required but never consulted. -/
def bkDummy : Backend := ⟨fun _ _ => 0, fun _ => 0, fun _ => 0⟩

/-- Claim C6: for every `GalvoDriver` state, calling `set_origin()` with no
argument and then reading `rel_pos` yields exactly 0: the origin becomes
the current `Point` and the position-only subtraction
`currentPoint - origin` is zero. -/
theorem set_origin_none_rel_pos_zero (g : GalvoDriver) :
    (g.set_origin none).rel_pos = 0 := by
  simp [GalvoDriver.set_origin, GalvoDriver.rel_pos, Point.sub, Point.ofPos]

/-- Claim C4: for every `GalvoDriver` state and every completed `go_to`
call (`intr = false`, covering both the no-backend path and backend
success), the history grows by exactly one element, the appended element
is exactly the `currentPoint` held before the call (so existing entries
are preserved and the history stays one step behind `currentPoint`, oldest
first), and the call returns normally. -/
theorem go_to_completed_appends_history (g : GalvoDriver) (new_pos speed : ℚ)
    (bk : Backend) :
    ((g.go_to new_pos speed bk false).1).point_history
        = g.point_history ++ [g.point]
    ∧ ∃ res, (g.go_to new_pos speed bk false).2 = Except.ok res := by
  unfold GalvoDriver.go_to
  dsimp only
  split
  · split
    · simp at *
    · split
      · exact ⟨rfl, _, rfl⟩
      · exact ⟨rfl, _, rfl⟩
  · exact ⟨rfl, _, rfl⟩

/-- Claim C2: for a single-axis `GalvoDriver` with a backend attached,
when `go_to` is interrupted during a stream (nonzero speed and nonzero
distance, interrupt during the blocking backend call), the controller sets
`currentPoint` through the `_voltage` setter from the backend's measured
voltage at its DAC register — never from the commanded destination — with
the history append completed, and the call re-raises the cancellation so
the caller observes that the move did not complete. -/
theorem go_to_interrupt_reconciles_from_readback (g : GalvoDriver)
    (new_pos speed : ℚ) (bk : Backend)
    (hlj : g.open_labjack = true) (hspeed : speed ≠ 0)
    (hdist : g.pos ≠ new_pos + g.origin.pos) :
    ((g.go_to new_pos speed bk true).1).point
        = Point.ofVoltage g.axis (bk.read g.dac_name)
    ∧ ((g.go_to new_pos speed bk true).1).point_history
        = g.point_history ++ [g.point]
    ∧ (g.go_to new_pos speed bk true).2 = Except.error () := by
  unfold GalvoDriver.go_to
  simp [hlj, GalvoDriver.set_voltage, GalvoDriver.set_point]

/-- A concrete driver with the backend flag set, standing in for a
`GalvoDriver` constructed with a live LabJack handle. -/
def gHw : GalvoDriver := { defaultGalvo with open_labjack := true, dac_name := "DAC0" }

/-- A backend whose readback voltage is 3 on every register. -/
def bkRead3 : Backend := ⟨fun _ _ => 3, fun _ => 3, fun t => t⟩

/-- Witness for claim C2 at a concrete interrupted streaming move. -/
theorem go_to_interrupt_reconciles_from_readback_witness :
    ((gHw.go_to 100 5 bkRead3 true).1).point
        = Point.ofVoltage gHw.axis (bkRead3.read gHw.dac_name)
    ∧ ((gHw.go_to 100 5 bkRead3 true).1).point_history
        = gHw.point_history ++ [gHw.point]
    ∧ (gHw.go_to 100 5 bkRead3 true).2 = Except.error () :=
  go_to_interrupt_reconciles_from_readback gHw 100 5 bkRead3 rfl
    (by norm_num)
    (by norm_num [gHw, defaultGalvo, GalvoDriver.pos, Point.ofPos])

/-- Claim C8: constructing a `GalvoDriver` with an axis outside the
supported set fails with the `InvalidAxis` error and produces no
controller state, while construction with `"x"` or `"z"` does not raise
this error. -/
theorem init_invalid_axis (ax dac : String) (p : ℚ) :
    (¬(ax = "x" ∨ ax = "z") →
        GalvoDriver.init ax dac p = Except.error DriverErr.invalidAxis)
    ∧ ((ax = "x" ∨ ax = "z") → ∃ g, GalvoDriver.init ax dac p = Except.ok g) := by
  constructor
  · intro h
    unfold GalvoDriver.init
    rw [if_neg h]
  · intro h
    unfold GalvoDriver.init
    rw [if_pos h]
    exact ⟨_, rfl⟩

/-- Witness for claim C8: axis `"y"` is rejected, axis `"x"` is not. -/
theorem init_invalid_axis_witness :
    GalvoDriver.init "y" "DAC0" 0 = Except.error DriverErr.invalidAxis
    ∧ ∃ g, GalvoDriver.init "x" "DAC0" 0 = Except.ok g :=
  ⟨(init_invalid_axis "y" "DAC0" 0).1 (by decide),
   (init_invalid_axis "x" "DAC0" 0).2 (Or.inl rfl)⟩

/-- The driver of the C5 scenario: `GalvoDriver("x", "DAC0", pos_init=0)`
with no backend. -/
def c5g0 : GalvoDriver :=
  (GalvoDriver.init "x" "DAC0" 0).toOption.getD defaultGalvo

/-- C5 state after `go_to(100, 0)`. -/
def c5g1 : GalvoDriver := (c5g0.go_to 100 0 bkDummy false).1

/-- C5 state after `set_origin(100)`. -/
def c5g2 : GalvoDriver := c5g1.set_origin (some 100)

/-- C5 state after `go_to(50, 0)`. -/
def c5g3 : GalvoDriver := (c5g2.go_to 50 0 bkDummy false).1

/-- Claim C5: on axis `"x"` with initial position 0 and no backend,
`go_to(100, 0)` yields `pos == 100` with reported duration 0, then
`set_origin(100)` yields `rel_pos == 0`, then `go_to(50, 0)` resolves the
absolute target as origin + requested relative position, yielding
`pos == 150` and `rel_pos == 50` with reported duration 0. -/
theorem no_backend_go_to_scenario :
    GalvoDriver.init "x" "DAC0" 0 = Except.ok c5g0
    ∧ c5g1.pos = 100
    ∧ (c5g0.go_to 100 0 bkDummy false).2 = Except.ok (100, 0)
    ∧ c5g2.rel_pos = 0
    ∧ c5g3.pos = 150
    ∧ c5g3.rel_pos = 50
    ∧ (c5g2.go_to 50 0 bkDummy false).2 = Except.ok (150, 0) := by
  refine ⟨rfl, ?_, ?_, ?_, ?_, ?_, ?_⟩ <;>
  · simp [c5g0, c5g1, c5g2, c5g3, GalvoDriver.init, GalvoDriver.go_to,
      GalvoDriver.set_origin, GalvoDriver.set_pos, GalvoDriver.set_point,
      GalvoDriver.pos, GalvoDriver.rel_pos, Point.ofPos, Point.sub,
      calSlope, calOffset, bkDummy, defaultGalvo, Except.toOption,
      Option.getD]
    try norm_num

/-- The driver of the C3 failing input:
`GalvoDriver("x", "DAC0", pos_init=100)` with no backend. -/
def c3g : GalvoDriver :=
  (GalvoDriver.init "x" "DAC0" 100).toOption.getD defaultGalvo

/-- Claim C3 (code bug): constructing with `pos_init = 100` seeds the
initial `Point` at 100 into the history, but leaves `currentPoint` at
position 200, not 100: the constructor first runs `set_origin(pos_init)`
and then `go_to(pos_init, 0)`, and `go_to` adds the origin to its
argument, doubling the initial position. -/
theorem init_doubles_pos_init :
    GalvoDriver.init "x" "DAC0" 100 = Except.ok c3g
    ∧ c3g.pos = 200
    ∧ Point.ofPos "x" 100 ∈ c3g.point_history := by
  refine ⟨rfl, ?_, ?_⟩ <;>
  · simp [c3g, GalvoDriver.init, GalvoDriver.go_to, GalvoDriver.set_pos,
      GalvoDriver.set_point, GalvoDriver.pos, Point.ofPos, calSlope,
      calOffset, defaultGalvo, Except.toOption, Option.getD]
    try norm_num

/-- First-match lookup in an association list, modelling Python dict
indexing (`d[k]`) with `none` standing for a `KeyError`. -/
def dictFind {α : Type} : List (String × α) → String → Option α
  | [], _ => none
  | (k', v) :: rest, k => if k = k' then some v else dictFind rest k

/-- Pointwise update of the `self._galvos` mapping at one key. -/
def dictSet (d : String → GalvoDriver) (k : String) (g : GalvoDriver) :
    String → GalvoDriver :=
  fun a => if a = k then g else d a

/-- Errors raised by `GalvoDrivers.__init__`: the two `KeyError`s of the
configuration-validation loop (each naming the missing axis), and the
`ValueError` propagated from a child `GalvoDriver` constructed on an
unsupported axis. -/
inductive GroupErr where
  | missingDac (ax : String)
  | missingPos (ax : String)
  | invalidAxis (ax : String)
deriving DecidableEq

/-- State of `GalvoDrivers` (`Galvo.py`): the declared axes, the DAC
register mapping, whether a backend handle is attached, and the per-axis
child `GalvoDriver` objects (`self._galvos`, total with a throwaway
default off the declared axes, which the source never reads). -/
structure GalvoDrivers where
  axis : List String
  dac_name : String → String
  open_labjack : Bool
  galvos : String → GalvoDriver

/-- A throwaway group used only as the default of total lookups. -/
def defaultGroup : GalvoDrivers :=
  { axis := [], dac_name := fun _ => "", open_labjack := false,
    galvos := fun _ => defaultGalvo }

/-- Modelled from the spec: `Move.py` (class `MoveMultiDim`) is not under
`src/`.  The group duration is the maximum of the per-axis single-axis
durations (axes share one speed, not one duration). -/
def MoveMultiDim.t (axes : List String) (origPos newPos : String → ℚ)
    (speed : ℚ) : ℚ :=
  (axes.map (fun ax =>
    (Move.mk ax (origPos ax) (newPos ax) speed).t)).foldr max 0

/-- The first loop of `GalvoDrivers.go_to`: run each child's `go_to`
(children never see the interrupt: the blocking backend call of the group
is the sole suspension point) and record the returned actual position as
the new absolute destination for that axis. -/
def goToChildren (new_pos : String → ℚ) (speed : ℚ) (bk : Backend) :
    List String → (String → GalvoDriver) × (String → ℚ) →
    (String → GalvoDriver) × (String → ℚ)
  | [], acc => acc
  | ax :: rest, acc =>
    let r := (acc.1 ax).go_to (new_pos ax) speed bk false
    goToChildren new_pos speed bk rest
      (dictSet acc.1 ax r.1,
       fun a => if a = ax then (r.2.toOption.getD (0, 0)).1 else acc.2 a)

/-- The loop of the group's `KeyboardInterrupt` handler:
`self._galvos[ax].voltage = actual_V[self._galvos[ax].dac_name]`.
`GalvoDriver` defines the property `_voltage`, not `voltage`, so in Python
this assignment creates a fresh plain instance attribute named `voltage`
and does not go through the `_voltage` setter: the child's `_point` (and
hence `pos`) is untouched.  Modelled by filling the dead `voltage_attr`
field. -/
def deadVoltageChildren (actual_V : String → ℚ) :
    List String → (String → GalvoDriver) → String → GalvoDriver
  | [], gs => gs
  | ax :: rest, gs =>
    deadVoltageChildren actual_V rest
      (dictSet gs ax
        { gs ax with voltage_attr := some (actual_V ((gs ax).dac_name)) })

/-- `GalvoDrivers.go_to speed new_pos bk intr`: the multi-axis move of
lines 423-511 of `Galvo.py`.  The children (constructed without hardware
access) are driven first, purely as per-axis bookkeeping, computing each
axis's absolute destination; then the group performs the single combined
backend interaction.  `intr = true` models a `KeyboardInterrupt` during
that blocking backend call, before `actual_V` / `actual_t` were assigned. -/
def GalvoDrivers.go_to (G : GalvoDrivers) (speed : ℚ) (new_pos : String → ℚ)
    (bk : Backend) (intr : Bool) :
    GalvoDrivers × Except Unit ((String → ℚ) × ℚ) :=
  let original_pos : String → ℚ := fun ax => (G.galvos ax).pos
  let stepped := goToChildren new_pos speed bk G.axis (G.galvos, fun _ => 0)
  let gal1 := stepped.1
  let new_abs_pos := stepped.2
  let mt := MoveMultiDim.t G.axis original_pos new_abs_pos speed
  if G.open_labjack then
    if intr then
      let actual_V := bk.read
      let gal2 := deadVoltageChildren actual_V G.axis gal1
      ({ G with galvos := gal2 }, Except.error ())
    else if speed = 0 ∨ mt = 0 then
      let move_bits := G.axis.map (fun ax =>
        (Move.mk ax (original_pos ax) (new_abs_pos ax) speed).lastBit)
      let actual_V := bk.update move_bits
      let actual_pos := fun ax =>
        (Point.ofVoltage ax (actual_V ((gal1 ax).dac_name))).pos
      ({ G with galvos := gal1 }, Except.ok (actual_pos, 0))
    else
      let actual_t := bk.stream_t mt
      let actual_V := bk.read
      let actual_pos := fun ax =>
        (Point.ofVoltage ax (actual_V ((gal1 ax).dac_name))).pos
      ({ G with galvos := gal1 }, Except.ok (actual_pos, actual_t))
  else
    let actual_pos := fun ax => (Point.ofPos ax (new_pos ax)).pos
    ({ G with galvos := gal1 }, Except.ok (actual_pos, 0))

/-- The body of one iteration of the `GalvoDrivers.set_origin` loop for
axis `ax`: with no keyword arguments, `set_origin()`; with keyword
arguments, `set_origin(orig[ax])` when `ax` is found and no change (the
`KeyError` is caught and only printed) when it is not. -/
def applyOrig (orig : List (String × ℚ)) (ax : String) (g : GalvoDriver) :
    GalvoDriver :=
  if orig.isEmpty then g.set_origin none
  else
    match dictFind orig ax with
    | some v => g.set_origin (some v)
    | none => g

/-- The loop of `GalvoDrivers.set_origin`: apply the per-axis origin
update to every declared axis in order. -/
def setOriginChildren (orig : List (String × ℚ)) :
    List String → (String → GalvoDriver) → String → GalvoDriver
  | [], gs => gs
  | ax :: rest, gs =>
    setOriginChildren orig rest (dictSet gs ax (applyOrig orig ax (gs ax)))

/-- `GalvoDrivers.set_origin` with the keyword arguments as an
association list (empty list = no keyword arguments). -/
def GalvoDrivers.set_origin (G : GalvoDrivers) (orig : List (String × ℚ)) :
    GalvoDrivers :=
  { G with galvos := setOriginChildren orig G.axis G.galvos }

/-- The validation loop of `GalvoDrivers.__init__`: probe `dac_name[ax]`
and `pos_init[ax]` for every declared axis, raising a `KeyError` naming
the first missing axis.  Runs before any child controller is created. -/
def validate_axes : List String → List (String × String) →
    List (String × ℚ) → Except GroupErr Unit
  | [], _, _ => Except.ok ()
  | ax :: rest, dacs, poss =>
    match dictFind dacs ax with
    | none => Except.error (GroupErr.missingDac ax)
    | some _ =>
      match dictFind poss ax with
      | none => Except.error (GroupErr.missingPos ax)
      | some _ => validate_axes rest dacs poss

/-- The child-construction loop of `GalvoDrivers.__init__`: each child is
`GalvoDriver(ax, dac_name[ax], pos_init=pos_init[ax], open_labjack=False)`
(hardware access stripped); a child rejecting its axis propagates as
`invalidAxis`.  The `getD` defaults never fire after a successful
`validate_axes`. -/
def build_galvos : List String → List (String × String) →
    List (String × ℚ) → (String → GalvoDriver) →
    Except GroupErr (String → GalvoDriver)
  | [], _, _, acc => Except.ok acc
  | ax :: rest, dacs, poss, acc =>
    match GalvoDriver.init ax ((dictFind dacs ax).getD "")
        ((dictFind poss ax).getD 0) with
    | Except.error _ => Except.error (GroupErr.invalidAxis ax)
    | Except.ok g => build_galvos rest dacs poss (dictSet acc ax g)

/-- `GalvoDrivers.__init__`: validate the configuration mappings, build
the per-axis children without hardware access, then run
`self.go_to(**pos_init, speed=0)` (uninterrupted). -/
def GalvoDrivers.init (axes : List String) (dacs : List (String × String))
    (poss : List (String × ℚ)) (open_labjack : Bool) (bk : Backend) :
    Except GroupErr GalvoDrivers :=
  match validate_axes axes dacs poss with
  | Except.error e => Except.error e
  | Except.ok _ =>
    match build_galvos axes dacs poss (fun _ => defaultGalvo) with
    | Except.error e => Except.error e
    | Except.ok gal =>
      let G0 : GalvoDrivers :=
        { axis := axes, dac_name := fun a => (dictFind dacs a).getD "",
          open_labjack := open_labjack, galvos := gal }
      Except.ok (G0.go_to 0 (fun a => (dictFind poss a).getD 0) bk false).1

/-- A child constructed on a supported axis succeeds. -/
lemma driver_init_ok_of_valid (ax dac : String) (p : ℚ)
    (h : ax = "x" ∨ ax = "z") : ∃ g, GalvoDriver.init ax dac p = Except.ok g := by
  unfold GalvoDriver.init
  rw [if_pos h]
  exact ⟨_, rfl⟩

/-- The validation loop accepts a configuration covering every axis. -/
lemma validate_axes_ok (dacs : List (String × String))
    (poss : List (String × ℚ)) :
    ∀ axes, (∀ ax ∈ axes, (dictFind dacs ax).isSome ∧ (dictFind poss ax).isSome) →
      validate_axes axes dacs poss = Except.ok () := by
  intro axes
  induction axes with
  | nil => intro _; rfl
  | cons ax rest ih =>
    intro h
    obtain ⟨h1, h2⟩ := h ax (by simp)
    obtain ⟨d, hd⟩ := Option.isSome_iff_exists.mp h1
    obtain ⟨p, hp⟩ := Option.isSome_iff_exists.mp h2
    unfold validate_axes
    rw [hd, hp]
    exact ih (fun a ha => h a (by simp [ha]))

/-- The validation loop rejects a configuration with a missing entry,
naming a missing axis. -/
lemma validate_axes_err (dacs : List (String × String))
    (poss : List (String × ℚ)) :
    ∀ axes, (∃ ax ∈ axes, dictFind dacs ax = none ∨ dictFind poss ax = none) →
      ∃ ax ∈ axes,
        (dictFind dacs ax = none ∧
          validate_axes axes dacs poss = Except.error (GroupErr.missingDac ax))
        ∨ (dictFind poss ax = none ∧
          validate_axes axes dacs poss = Except.error (GroupErr.missingPos ax)) := by
  intro axes
  induction axes with
  | nil =>
    rintro ⟨ax, hmem, -⟩
    simp at hmem
  | cons ax rest ih =>
    intro h
    by_cases hd : dictFind dacs ax = none
    · exact ⟨ax, by simp, Or.inl ⟨hd, by unfold validate_axes; rw [hd]⟩⟩
    · obtain ⟨d, hd'⟩ := Option.ne_none_iff_exists'.mp hd
      by_cases hp : dictFind poss ax = none
      · exact ⟨ax, by simp, Or.inr ⟨hp, by unfold validate_axes; rw [hd', hp]⟩⟩
      · obtain ⟨p, hp'⟩ := Option.ne_none_iff_exists'.mp hp
        have hrest : ∃ a ∈ rest, dictFind dacs a = none ∨ dictFind poss a = none := by
          obtain ⟨a, ha, hcase⟩ := h
          rcases List.mem_cons.mp ha with rfl | ha'
          · rcases hcase with h1 | h1
            · exact absurd h1 hd
            · exact absurd h1 hp
          · exact ⟨a, ha', hcase⟩
        obtain ⟨a, ha, hcase⟩ := ih hrest
        have hval : validate_axes (ax :: rest) dacs poss = validate_axes rest dacs poss := by
          conv_lhs => unfold validate_axes
          rw [hd', hp']
        exact ⟨a, by simp [ha], by rw [hval]; exact hcase⟩

/-- Child construction succeeds for every accumulator when every axis is
supported. -/
lemma build_galvos_ok (dacs : List (String × String))
    (poss : List (String × ℚ)) :
    ∀ axes, (∀ ax ∈ axes, ax = "x" ∨ ax = "z") →
      ∀ acc, ∃ gal, build_galvos axes dacs poss acc = Except.ok gal := by
  intro axes
  induction axes with
  | nil => intro _ acc; exact ⟨acc, rfl⟩
  | cons ax rest ih =>
    intro h acc
    obtain ⟨g, hg⟩ := driver_init_ok_of_valid ax ((dictFind dacs ax).getD "")
      ((dictFind poss ax).getD 0) (h ax (by simp))
    obtain ⟨gal, hgal⟩ := ih (fun a ha => h a (by simp [ha])) (dictSet acc ax g)
    refine ⟨gal, ?_⟩
    unfold build_galvos
    rw [hg]
    exact hgal

/-- A validation failure decides the whole construction: the group
constructor returns exactly the validation error, before any per-axis
child is built. -/
lemma init_of_validate_err (axes : List String)
    (dacs : List (String × String)) (poss : List (String × ℚ))
    (lj : Bool) (bk : Backend) (e : GroupErr)
    (h : validate_axes axes dacs poss = Except.error e) :
    GalvoDrivers.init axes dacs poss lj bk = Except.error e := by
  unfold GalvoDrivers.init
  rw [h]

/-- Claim C7 (amended): a `dac_name` or `pos_init` mapping omitting a
declared axis makes group construction fail with the error naming a
missing axis; any validation error is returned as-is before per-axis
controller state is created; and construction succeeds whenever both
mappings contain an entry for every declared axis *and* every declared
axis is a supported axis (`"x"` or `"z"`) — the unamended success clause
is refuted by `group_init_counterexample`. -/
theorem group_init_validation (axes : List String)
    (dacs : List (String × String)) (poss : List (String × ℚ))
    (lj : Bool) (bk : Backend) :
    ((∃ ax ∈ axes, dictFind dacs ax = none ∨ dictFind poss ax = none) →
      ∃ ax ∈ axes,
        (dictFind dacs ax = none ∧
          GalvoDrivers.init axes dacs poss lj bk = Except.error (GroupErr.missingDac ax))
        ∨ (dictFind poss ax = none ∧
          GalvoDrivers.init axes dacs poss lj bk = Except.error (GroupErr.missingPos ax)))
    ∧ (∀ e, validate_axes axes dacs poss = Except.error e →
        GalvoDrivers.init axes dacs poss lj bk = Except.error e)
    ∧ ((∀ ax ∈ axes,
          (dictFind dacs ax).isSome ∧ (dictFind poss ax).isSome ∧ (ax = "x" ∨ ax = "z")) →
        ∃ G, GalvoDrivers.init axes dacs poss lj bk = Except.ok G) := by
  refine ⟨?_, ?_, ?_⟩
  · intro h
    obtain ⟨ax, hmem, hcase⟩ := validate_axes_err dacs poss axes h
    refine ⟨ax, hmem, ?_⟩
    rcases hcase with ⟨h1, h2⟩ | ⟨h1, h2⟩
    · exact Or.inl ⟨h1, init_of_validate_err axes dacs poss lj bk _ h2⟩
    · exact Or.inr ⟨h1, init_of_validate_err axes dacs poss lj bk _ h2⟩
  · intro e he
    exact init_of_validate_err axes dacs poss lj bk e he
  · intro h
    have hval : validate_axes axes dacs poss = Except.ok () :=
      validate_axes_ok dacs poss axes (fun a ha => ⟨(h a ha).1, (h a ha).2.1⟩)
    obtain ⟨gal, hgal⟩ := build_galvos_ok dacs poss axes
      (fun a ha => (h a ha).2.2) (fun _ => defaultGalvo)
    unfold GalvoDrivers.init
    rw [hval, hgal]
    exact ⟨_, rfl⟩

/-- Counterexample to claim C7 as stated: both configuration mappings
contain an entry for the (single) declared axis `"y"`, yet group
construction does not succeed — the child controller rejects the
unsupported axis. -/
theorem group_init_counterexample :
    (∀ ax ∈ ["y"], (dictFind [("y", "DAC0")] ax).isSome
        ∧ (dictFind [("y", (0 : ℚ))] ax).isSome)
    ∧ GalvoDrivers.init ["y"] [("y", "DAC0")] [("y", 0)] false bkDummy
        = Except.error (GroupErr.invalidAxis "y") :=
  ⟨by decide, rfl⟩

/-- Witness for claim C7 (amended) at concrete configurations: an empty
`dac_name` mapping fails naming the missing axis, and a full mapping over
the supported axes constructs successfully. -/
theorem group_init_validation_witness :
    (∃ ax ∈ ["z"],
      (dictFind ([] : List (String × String)) ax = none ∧
        GalvoDrivers.init ["z"] [] [] false bkDummy
          = Except.error (GroupErr.missingDac ax))
      ∨ (dictFind ([] : List (String × ℚ)) ax = none ∧
        GalvoDrivers.init ["z"] [] [] false bkDummy
          = Except.error (GroupErr.missingPos ax)))
    ∧ ∃ G, GalvoDrivers.init ["x", "z"] [("x", "DAC0"), ("z", "DAC1")]
        [("x", 0), ("z", 0)] false bkDummy = Except.ok G := by
  constructor
  · exact (group_init_validation ["z"] [] [] false bkDummy).1
      ⟨"z", by simp, Or.inl rfl⟩
  · exact (group_init_validation ["x", "z"] [("x", "DAC0"), ("z", "DAC1")]
      [("x", 0), ("z", 0)] false bkDummy).2.2 (by decide)

/-- A single-axis `go_to` never changes whether a backend is attached. -/
lemma go_to_flag (g : GalvoDriver) (n s : ℚ) (bk : Backend) (i : Bool) :
    ((g.go_to n s bk i).1).open_labjack = g.open_labjack := by
  cases hlj : g.open_labjack <;> cases i <;>
    simp [GalvoDriver.go_to, hlj, GalvoDriver.set_pos, GalvoDriver.set_voltage,
      GalvoDriver.set_point] <;>
    split <;> rfl

/-- A successfully constructed child has no backend attached. -/
lemma driver_init_flag (ax dac : String) (p : ℚ) (g : GalvoDriver)
    (h : GalvoDriver.init ax dac p = Except.ok g) : g.open_labjack = false := by
  unfold GalvoDriver.init at h
  split at h
  · simp only [Except.ok.injEq] at h
    subst h
    rw [go_to_flag]
  · cases h

/-- `build_galvos` preserves "no child has a backend attached". -/
lemma build_galvos_flag (dacs : List (String × String))
    (poss : List (String × ℚ)) :
    ∀ axes (acc : String → GalvoDriver) gal,
      (∀ a, (acc a).open_labjack = false) →
      build_galvos axes dacs poss acc = Except.ok gal →
      ∀ a, (gal a).open_labjack = false := by
  intro axes
  induction axes with
  | nil =>
    intro acc gal hacc h a
    unfold build_galvos at h
    simp only [Except.ok.injEq] at h
    subst h
    exact hacc a
  | cons ax rest ih =>
    intro acc gal hacc h a
    unfold build_galvos at h
    split at h
    · cases h
    · rename_i g hg
      refine ih (dictSet acc ax g) gal ?_ h a
      intro b
      unfold dictSet
      split
      · exact driver_init_flag ax _ _ g hg
      · exact hacc b

/-- The per-axis bookkeeping loop of the group `go_to` preserves "no
child has a backend attached". -/
lemma goToChildren_flag (np : String → ℚ) (sp : ℚ) (bk : Backend) :
    ∀ axes (acc : (String → GalvoDriver) × (String → ℚ)),
      (∀ a, (acc.1 a).open_labjack = false) →
      ∀ a, (((goToChildren np sp bk axes acc).1) a).open_labjack = false := by
  intro axes
  induction axes with
  | nil => intro acc h a; exact h a
  | cons ax rest ih =>
    intro acc h a
    unfold goToChildren
    refine ih _ ?_ a
    intro b
    dsimp only
    unfold dictSet
    split
    · rw [go_to_flag]; exact h ax
    · exact h b

/-- The group interrupt handler's loop preserves "no child has a backend
attached". -/
lemma deadVoltageChildren_flag (aV : String → ℚ) :
    ∀ axes (gs : String → GalvoDriver),
      (∀ a, (gs a).open_labjack = false) →
      ∀ a, ((deadVoltageChildren aV axes gs) a).open_labjack = false := by
  intro axes
  induction axes with
  | nil => intro gs h a; exact h a
  | cons ax rest ih =>
    intro gs h a
    unfold deadVoltageChildren
    refine ih _ ?_ a
    intro b
    unfold dictSet
    split
    · exact h ax
    · exact h b

/-- The group `go_to` preserves "no child has a backend attached". -/
lemma group_go_to_flag (G : GalvoDrivers) (sp : ℚ) (np : String → ℚ)
    (bk : Backend) (i : Bool)
    (h : ∀ a, (G.galvos a).open_labjack = false) :
    ∀ a, (((G.go_to sp np bk i).1).galvos a).open_labjack = false := by
  intro a
  have hstep := goToChildren_flag np sp bk G.axis (G.galvos, fun _ => 0) h
  unfold GalvoDrivers.go_to
  dsimp only
  split
  · split
    · exact deadVoltageChildren_flag _ G.axis _ hstep a
    · split
      · exact hstep a
      · exact hstep a
  · exact hstep a

/-- Claim C9: every per-axis child `GalvoDriver` of a successfully
constructed `GalvoDrivers` group has no backend attached
(`open_labjack=False` is hard-coded at child construction, and nothing
later attaches one), whatever backend flag the group itself was given:
only the group object ever drives the shared backend. -/
theorem group_children_no_backend (axes : List String)
    (dacs : List (String × String)) (poss : List (String × ℚ))
    (lj : Bool) (bk : Backend) (G : GalvoDrivers)
    (h : GalvoDrivers.init axes dacs poss lj bk = Except.ok G) :
    ∀ ax ∈ axes, ((G.galvos ax).open_labjack) = false := by
  intro ax _
  unfold GalvoDrivers.init at h
  split at h
  · cases h
  · split at h
    · cases h
    · rename_i gal hgal
      simp only [Except.ok.injEq] at h
      subst h
      exact group_go_to_flag _ 0 _ bk false
        (build_galvos_flag dacs poss axes _ gal (fun _ => rfl) hgal) ax

/-- The two-axis demo group of `Galvo.py`'s `__main__` block, constructed
with no backend; shared by several concrete witnesses. -/
def groupXZ : GalvoDrivers :=
  (GalvoDrivers.init ["x", "z"] [("x", "DAC0"), ("z", "DAC1")]
    [("x", 0), ("z", 0)] false bkDummy).toOption.getD defaultGroup

/-- Witness for claim C9 on a concrete two-axis group. -/
theorem group_children_no_backend_witness :
    ((groupXZ.galvos "x").open_labjack) = false
    ∧ ((groupXZ.galvos "z").open_labjack) = false := by
  have h := group_children_no_backend ["x", "z"]
    [("x", "DAC0"), ("z", "DAC1")] [("x", 0), ("z", 0)] false bkDummy
    groupXZ rfl
  exact ⟨h "x" (by simp), h "z" (by simp)⟩

/-- The per-axis origin update never touches the child's current `Point`. -/
lemma applyOrig_point (o : List (String × ℚ)) (ax : String) (g : GalvoDriver) :
    (applyOrig o ax g).point = g.point := by
  unfold applyOrig GalvoDriver.set_origin
  split
  · rfl
  · split <;> rfl

/-- The per-axis origin update never touches the child's history. -/
lemma applyOrig_history (o : List (String × ℚ)) (ax : String) (g : GalvoDriver) :
    (applyOrig o ax g).point_history = g.point_history := by
  unfold applyOrig GalvoDriver.set_origin
  split
  · rfl
  · split <;> rfl

/-- Applying the same per-axis origin update twice equals applying it
once (needed because a declared axis may repeat in the axis list). -/
lemma applyOrig_idem (o : List (String × ℚ)) (ax : String) (g : GalvoDriver) :
    applyOrig o ax (applyOrig o ax g) = applyOrig o ax g := by
  by_cases he : o.isEmpty
  · simp [applyOrig, he, GalvoDriver.set_origin]
  · cases hf : dictFind o ax with
    | none => simp [applyOrig, he, hf]
    | some v => simp [applyOrig, he, hf, GalvoDriver.set_origin]

/-- Closed form of the `set_origin` loop: each declared axis gets exactly
the per-axis update, every other entry of the mapping is untouched. -/
lemma setOriginChildren_run (o : List (String × ℚ)) :
    ∀ (l : List String) (gs : String → GalvoDriver) (a : String),
      setOriginChildren o l gs a = if a ∈ l then applyOrig o a (gs a) else gs a := by
  intro l
  induction l with
  | nil => intro gs a; simp [setOriginChildren]
  | cons ax rest ih =>
    intro gs a
    unfold setOriginChildren
    rw [ih]
    by_cases hax : a = ax
    · subst hax
      by_cases hmem : a ∈ rest
      · simp [hmem, dictSet, applyOrig_idem]
      · simp [hmem, dictSet]
    · by_cases hmem : a ∈ rest
      · simp [hmem, hax, dictSet]
      · simp [hmem, hax, dictSet]

/-- Claim C10: calling the group `set_origin` with keyword arguments
covering a (possibly strict) nonempty subset of the declared axes updates
the origins of exactly the covered declared axes, leaves the origins of
the omitted axes unchanged, reports no error to the caller (the
`KeyError` for an uncovered axis is caught inside the loop), and modifies
no axis's `currentPoint` or history; axes outside the declared set are
untouched entirely. -/
theorem group_set_origin_frame (G : GalvoDrivers) (orig : List (String × ℚ))
    (hne : orig ≠ []) :
    ∀ ax,
      ((G.set_origin orig).galvos ax).point = (G.galvos ax).point
      ∧ ((G.set_origin orig).galvos ax).point_history
          = (G.galvos ax).point_history
      ∧ (ax ∈ G.axis → ∀ v, dictFind orig ax = some v →
          ((G.set_origin orig).galvos ax).origin
            = Point.ofPos (G.galvos ax).axis v)
      ∧ (ax ∈ G.axis → dictFind orig ax = none →
          ((G.set_origin orig).galvos ax).origin = (G.galvos ax).origin)
      ∧ (ax ∉ G.axis → (G.set_origin orig).galvos ax = G.galvos ax) := by
  intro ax
  have hne' : orig.isEmpty = false := by
    cases orig
    · exact absurd rfl hne
    · rfl
  have hgal : ∀ a, (G.set_origin orig).galvos a
      = if a ∈ G.axis then applyOrig orig a (G.galvos a) else G.galvos a :=
    fun a => setOriginChildren_run orig G.axis G.galvos a
  rw [hgal]
  by_cases hmem : ax ∈ G.axis
  · rw [if_pos hmem]
    refine ⟨applyOrig_point _ _ _, applyOrig_history _ _ _, ?_, ?_, ?_⟩
    · intro _ v hv
      simp [applyOrig, hne', hv, GalvoDriver.set_origin]
    · intro _ hv
      simp [applyOrig, hne', hv]
    · intro hc
      exact absurd hmem hc
  · rw [if_neg hmem]
    exact ⟨rfl, rfl, fun hc => absurd hc hmem, fun hc => absurd hc hmem,
      fun _ => rfl⟩

/-- Witness for claim C10 on the concrete two-axis group, with keyword
arguments covering only the `"x"` axis. -/
theorem group_set_origin_frame_witness :
    ((groupXZ.set_origin [("x", 7)]).galvos "x").origin
        = Point.ofPos (groupXZ.galvos "x").axis 7
    ∧ ((groupXZ.set_origin [("x", 7)]).galvos "z").origin
        = (groupXZ.galvos "z").origin
    ∧ ((groupXZ.set_origin [("x", 7)]).galvos "z").point
        = (groupXZ.galvos "z").point := by
  have hx := group_set_origin_frame groupXZ [("x", 7)] (by simp) "x"
  have hz := group_set_origin_frame groupXZ [("x", 7)] (by simp) "z"
  refine ⟨hx.2.2.1 ?_ 7 rfl, hz.2.2.2.1 ?_ rfl, hz.1⟩
  · show "x" ∈ groupXZ.axis
    have haxes : groupXZ.axis = ["x", "z"] := rfl
    rw [haxes]
    simp
  · show "z" ∈ groupXZ.axis
    have haxes : groupXZ.axis = ["x", "z"] := rfl
    rw [haxes]
    simp

/-- A backend whose readback voltage is 1 on every register (by the `"x"`
calibration, voltage 1 is position 0). -/
def bkRead1 : Backend := ⟨fun _ _ => 1, fun _ => 1, fun t => t⟩

/-- A single-axis group constructed with a backend attached. -/
def groupHW : GalvoDrivers :=
  (GalvoDrivers.init ["x"] [("x", "DAC0")] [("x", 0)] true
    bkRead1).toOption.getD defaultGroup

/-- The C1 scenario: a streaming group move to 100 microns at speed 5,
interrupted during the blocking backend call, with readback voltage 1. -/
def c1run : GalvoDrivers × Except Unit ((String → ℚ) × ℚ) :=
  groupHW.go_to 5 (fun _ => 100) bkRead1 true

/-- Claim C1 (code bug): after the interrupted streaming group move, the
`"x"` child's `pos` still equals the commanded destination 100, not the
position 0 derived from the shared backend readback, even though the
cancellation is re-raised.  The handler executes
`self._galvos[ax].voltage = actual_V[...]`, but `GalvoDriver` defines the
property `_voltage`, not `voltage`, so the assignment only creates a dead
instance attribute (here `voltage_attr = some 1`) and the child's
`currentPoint` — already committed to the destination by the bookkeeping
pass — is never reconciled. -/
theorem group_interrupt_keeps_commanded_pos :
    GalvoDrivers.init ["x"] [("x", "DAC0")] [("x", 0)] true bkRead1
        = Except.ok groupHW
    ∧ (c1run.1.galvos "x").pos = 100
    ∧ (Point.ofVoltage "x" (bkRead1.read "DAC0")).pos = 0
    ∧ (c1run.1.galvos "x").pos
        ≠ (Point.ofVoltage "x" (bkRead1.read "DAC0")).pos
    ∧ (c1run.1.galvos "x").voltage_attr = some 1
    ∧ c1run.2 = Except.error () := by
  refine ⟨rfl, ?_, ?_, ?_, ?_, ?_⟩ <;>
  · simp [c1run, groupHW, GalvoDrivers.init, GalvoDrivers.go_to,
      goToChildren, deadVoltageChildren, validate_axes, build_galvos,
      GalvoDriver.init, GalvoDriver.go_to, GalvoDriver.set_pos,
      GalvoDriver.set_point, GalvoDriver.set_voltage, GalvoDriver.pos,
      Point.ofPos, Point.ofVoltage, dictFind, dictSet, MoveMultiDim.t,
      Move.t, Move.lastBit, calSlope, calOffset, defaultGalvo,
      defaultGroup, bkRead1, Except.toOption, Option.getD]
    try norm_num
